import Mathlib

/-!
Verification of the cmx-battleship session registry
(`src/user_session/daos.py`, `src/user_session/models.py`).

The relational store is embedded as two lists: the `user_session` table and
the `player_slot` table.  Timestamps are integers (seconds); the liveness
window of ten minutes is 600 seconds.  SQL statements of `daos.py` are
translated clause by clause into list operations.  The `player_slot.in_use`
bookkeeping is not performed by any statement under `src/` — it lives in the
database schema — and is modelled from the spec where noted.
-/

/-- Errors raised by the Python code, as an explicit error type:
`attributeError` models Python raising AttributeError on a `None`
dereference, `apiException` models `app.exceptions.APIException`,
`validationError` carries the field and message of `ValidationException`,
and `dbError` stands for a storage-layer exception such as IntegrityError. -/
inductive PyError where
  | attributeError : PyError
  | apiException : String → PyError
  | validationError : String → String → PyError
  | dbError : PyError
deriving DecidableEq, Repr

/-- Liveness window of `daos.py`: INTERVAL 10 MINUTES, in seconds. -/
def WINDOW : Int := 600

/-- Row of the `user_session` table (columns used by `daos.py`). -/
structure SessionRow where
  session_id : Nat
  player_id : String
  player_name : String
  num_ships : String
  session_started : Int
  session_used : Int
deriving DecidableEq, Repr

/-- Row of the `player_slot` table: an identifier and its in-use flag
(the column holds Y or N; we model it as a Bool, Y = true). -/
structure Slot where
  player_id : String
  in_use : Bool
deriving DecidableEq, Repr

/-- The relational store accessed through `app.connections`. -/
structure DBState where
  user_session : List SessionRow
  player_slot : List Slot
deriving DecidableEq, Repr

/-- The SQL predicate `x between NOW() - INTERVAL 10 MINUTES and NOW()`
applied to a `session_used` value. -/
def liveAt (now used : Int) : Bool :=
  decide (now - WINDOW ≤ used) && decide (used ≤ now)

/-- Set the `in_use` flag of every slot holding the given identifier. -/
def markSlot (ps : List Slot) (pid : String) (b : Bool) : List Slot :=
  ps.map fun s => if s.player_id = pid then { s with in_use := b } else s

/-- Modelled from the spec: the database schema (not under `src/`) keeps
`player_slot.in_use` in sync with the `user_session` rows — a session row
and its identifier's in-use mark "must be created and released together"
(spec section 3), so inserting a session row marks its slot unavailable. -/
def insertSession (st : DBState) (r : SessionRow) : DBState :=
  { user_session := st.user_session ++ [r]
    player_slot := markSlot st.player_slot r.player_id true }

/-- Modelled from the spec: releasing the identifiers of deleted session
rows back to the slot pool (spec sections 4.2 and 4.4); the schema flips
`in_use` back for every row removed from `user_session`. -/
def releaseSlots (ps : List Slot) (deleted : List SessionRow) : List Slot :=
  deleted.foldl (fun acc r => markSlot acc r.player_id false) ps

/-- A SQL `delete from user_session where p`, together with the
spec-modelled release of the deleted rows' identifiers. -/
def deleteWhere (st : DBState) (p : SessionRow → Bool) : DBState :=
  { user_session := st.user_session.filter fun r => !(p r)
    player_slot := releaseSlots st.player_slot (st.user_session.filter p) }

/-- Rows of `user_session` after
`update user_session set session_used = current_timestamp where session_id = sid`. -/
def touchRows (rows : List SessionRow) (sid : Nat) (now : Int) : List SessionRow :=
  rows.map fun r => if r.session_id = sid then { r with session_used := now } else r

/-- `retrieve_session` of `daos.py`: select the row with the given
`session_id` whose `session_used` is between NOW() - 10 minutes and NOW();
if none, return None; otherwise update its `session_used` to the current
timestamp and return the player data that was read. -/
def retrieve_session (now : Int) (sid : Nat) (st : DBState) :
    Option SessionRow × DBState :=
  match st.user_session.find?
      (fun r => decide (r.session_id = sid) && liveAt now r.session_used) with
  | none => (none, st)
  | some r => (some r, { st with user_session := touchRows st.user_session sid now })

/-- `get_online_player_count` of `daos.py`: first delete every
`user_session` row whose `session_used` is not between NOW() - 10 minutes
and NOW(), then count the `player_slot` rows with `in_use = Y`.
(The trailing `or 0` of the Python is the identity on a count.) -/
def get_online_player_count (now : Int) (st : DBState) : Nat × DBState :=
  let st' := deleteWhere st (fun r => !(liveAt now r.session_used))
  ((st'.player_slot.filter fun s => s.in_use).length, st')

/-- `get_available_player_id` of `daos.py`:
`select player_id from player_slot where in_use = N limit 1` then
`fetchone`.  The Python then runs `player_id = result.get('player_id')`
BEFORE its `if result is None` guard, so when no row was fetched the
dereference raises AttributeError and the guard — which would have raised
the server-full APIException — is never reached; the guard's other arm
(`player_id is None`) cannot fire because the schema's `player_id` column
is non-null.  We model the dereference-before-guard faithfully. -/
def get_available_player_id (st : DBState) : Except PyError String :=
  let result := st.player_slot.find? fun s => !s.in_use
  match result with
  | none => .error PyError.attributeError
  | some row => .ok row.player_id

/-- Fields of `LoginRequest` that `start_session` reads. -/
structure LoginRequest where
  player_name : String
  num_ships : String
deriving DecidableEq, Repr

/-- Body of the `try` block of `start_session`: allocate an identifier via
`get_available_player_id`, then insert the session row.  `gen_session_id`
stands for the freshly generated `uuid.uuid4()`; `insertFails` is an oracle
for the insert statement raising a storage-layer exception.  The schema
(not under `src/`) defaults `session_started` and `session_used` to the
current timestamp, per spec section 4.3. -/
def start_session_run (insertFails : Bool) (gen_session_id : Nat) (now : Int)
    (session : LoginRequest) (st : DBState) :
    Except PyError ((Nat × String) × DBState) :=
  match get_available_player_id st with
  | .error e => .error e
  | .ok gen_player_id =>
    if insertFails then .error PyError.dbError
    else .ok ((gen_session_id, gen_player_id),
      insertSession st
        { session_id := gen_session_id
          player_id := gen_player_id
          player_name := session.player_name
          num_ships := session.num_ships
          session_started := now
          session_used := now })

/-- `start_session` of `daos.py`: the whole body sits in a
`try ... except Exception` that logs and falls through, so any raise inside
the block makes the function return None with the store unchanged. -/
def start_session (insertFails : Bool) (gen_session_id : Nat) (now : Int)
    (session : LoginRequest) (st : DBState) :
    Option (Nat × String) × DBState :=
  match start_session_run insertFails gen_session_id now session st with
  | .error _ => (none, st)
  | .ok (ids, st') => (some ids, st')

/-- `end_session` of `daos.py`: `delete from user_session where
session_id = sid` inside a `try ... except Exception` that logs; the
deleted row's identifier is released by the spec-modelled schema sync.
`deleteFails` is an oracle for the delete raising, in which case the
exception is swallowed and the store is unchanged. -/
def end_session (deleteFails : Bool) (sid : Nat) (st : DBState) : DBState :=
  if deleteFails then st
  else deleteWhere st (fun r => decide (r.session_id = sid))

/-- Modelled from the spec: `isBlank` of the external
`django_utils_morriswa.str_tools` helper (not under `src/`) — a string is
blank when it is empty or consists only of whitespace. -/
def isBlank (s : String) : Bool :=
  s.data.all Char.isWhitespace

/-- Character class of the `models.py` regular expression `[A-Za-z0-9-_.]`. -/
def nameCharOk (c : Char) : Bool :=
  c.isUpper || c.isLower || c.isDigit || c = '-' || c = '_' || c = '.'

/-- Python `fullmatch` of the anchored class-star pattern
`USER_SESSION_PLAYER_NAME_REGEXP`: every character lies in the class. -/
def nameOk (s : String) : Bool :=
  s.data.all nameCharOk

/-- `USER_SESSION_PLAYER_NAME_MIN_LEN` of `models.py`. -/
def USER_SESSION_PLAYER_NAME_MIN_LEN : Nat := 4

/-- `USER_SESSION_PLAYER_NAME_MAX_LEN` of `models.py`. -/
def USER_SESSION_PLAYER_NAME_MAX_LEN : Nat := 32

/-- `USER_SESSION_NUM_SHIPS_OPTIONS` of `models.py`. -/
def USER_SESSION_NUM_SHIPS_OPTIONS : List String :=
  ["1", "2", "3", "4", "5"]

/-- Input dictionary handed to the `UserSession` constructor
(`data.get` of a missing key yields None, hence the Options). -/
structure SessionData where
  session_id : Option Nat
  player_id : Option String
  player_name : Option String
  num_ships : Option String
  session_started : Option Int
  session_used : Option Int
deriving DecidableEq, Repr

/-- A fully constructed `UserSession` model. -/
structure UserSession where
  session_id : Option Nat
  player_id : Option String
  player_name : String
  num_ships : String
  session_started : Option Int
  session_used : Option Int
deriving DecidableEq, Repr

/-- `UserSession.validate` of `models.py`: the `player_name` length and
character-set checks in their elif chain, then the `num_ships`
enumeration check; the first failing check raises. -/
def UserSession.validate (player_name num_ships : String) : Option PyError :=
  if player_name.length < USER_SESSION_PLAYER_NAME_MIN_LEN then
    some (.validationError "player_name" "min len 4")
  else if USER_SESSION_PLAYER_NAME_MAX_LEN < player_name.length then
    some (.validationError "player_name" "max len 32")
  else if !(nameOk player_name) then
    some (.validationError "player_name" "A-Z a-z 0-9 - _ . only")
  else if !(USER_SESSION_NUM_SHIPS_OPTIONS.contains num_ships) then
    some (.validationError "num_ships" "options: [1, 2, 3, 4, 5]")
  else
    none

/-- `UserSession.__init__` of `models.py`: required/blank checks on
`player_name` and `num_ships` in order, then `self.validate()`;
construction either raises a `ValidationException` or yields the model. -/
def UserSession.init (data : SessionData) : Except PyError UserSession :=
  match data.player_name with
  | none => .error (.validationError "player_name" "required")
  | some nm =>
    if isBlank nm then .error (.validationError "player_name" "required")
    else
      match data.num_ships with
      | none => .error (.validationError "num_ships" "required")
      | some ns =>
        if isBlank ns then .error (.validationError "num_ships" "required")
        else
          match UserSession.validate nm ns with
          | some e => .error e
          | none => .ok
              { session_id := data.session_id
                player_id := data.player_id
                player_name := nm
                num_ships := ns
                session_started := data.session_started
                session_used := data.session_used }

/-- Modelled from the spec: `create_session` (spec sections 4.3 and 6) —
the request layer constructs (and thereby validates) the request model
first, and only a successfully constructed model reaches `start_session`;
the view gluing the two is not under `src/`.  A `ValidationException`
therefore surfaces before any store access. -/
def create_session (insertFails : Bool) (gen_session_id : Nat) (now : Int)
    (data : SessionData) (st : DBState) :
    Except PyError (Option (Nat × String)) × DBState :=
  match UserSession.init data with
  | .error e => (.error e, st)
  | .ok u =>
    match start_session insertFails gen_session_id now
        { player_name := u.player_name, num_ships := u.num_ships } st with
    | (r, st') => (.ok r, st')

/-- Store invariant maintained by the spec-modelled schema sync: slot
identifiers are pairwise distinct, active sessions bind pairwise distinct
identifiers and session ids, a slot is in use exactly when some session
row binds its identifier, and every session row binds an existing slot. -/
def DBInv (st : DBState) : Prop :=
  (st.player_slot.map Slot.player_id).Nodup ∧
  (st.user_session.map SessionRow.player_id).Nodup ∧
  (st.user_session.map SessionRow.session_id).Nodup ∧
  (∀ s ∈ st.player_slot,
    s.in_use = st.user_session.any fun r => decide (r.player_id = s.player_id)) ∧
  (∀ r ∈ st.user_session, r.player_id ∈ st.player_slot.map Slot.player_id)

instance (st : DBState) : Decidable (DBInv st) := by
  unfold DBInv; infer_instance

/-- Invalid `player_name` exactly as claim C7 lists the cases: absent,
shorter than 4, longer than 32, or containing a character outside
letters, digits, hyphen, underscore, dot. -/
def badName (d : SessionData) : Bool :=
  match d.player_name with
  | none => true
  | some nm =>
    decide (nm.length < 4) || decide (32 < nm.length) || !(nameOk nm)

/-- Invalid `num_ships` exactly as claim C7 lists the cases: absent or not
one of the strings 1..5. -/
def badShips (d : SessionData) : Bool :=
  match d.num_ships with
  | none => true
  | some ns => !(USER_SESSION_NUM_SHIPS_OPTIONS.contains ns)

/-! ## Helper lemmas about the slot bookkeeping -/

theorem markSlot_map_player_id (ps : List Slot) (pid : String) (b : Bool) :
    (markSlot ps pid b).map Slot.player_id = ps.map Slot.player_id := by
  unfold markSlot
  rw [List.map_map]
  congr 1
  funext s
  by_cases h : s.player_id = pid <;> simp [Function.comp, h]

theorem releaseSlots_eq_map (ds : List SessionRow) (ps : List Slot) :
    releaseSlots ps ds = ps.map fun s =>
      if ds.any (fun r => decide (r.player_id = s.player_id)) then
        { s with in_use := false } else s := by
  induction ds generalizing ps with
  | nil => simp [releaseSlots]
  | cons d ds ih =>
    have hstep : releaseSlots ps (d :: ds)
        = releaseSlots (markSlot ps d.player_id false) ds := rfl
    rw [hstep, ih, markSlot, List.map_map]
    congr 1
    funext s
    by_cases h : s.player_id = d.player_id
    · simp [Function.comp, h]
    · have hds : ¬d.player_id = s.player_id := fun hdp => h hdp.symm
      simp [Function.comp, h, hds]

theorem releaseSlots_map_player_id (ps : List Slot) (ds : List SessionRow) :
    (releaseSlots ps ds).map Slot.player_id = ps.map Slot.player_id := by
  rw [releaseSlots_eq_map, List.map_map]
  congr 1
  funext s
  by_cases h : (ds.any fun r => decide (r.player_id = s.player_id)) = true <;>
    simp [Function.comp, h]

theorem find?_eq_some_unique {α : Type} {p : α → Bool} {l : List α} {a : α}
    (ha : a ∈ l) (hpa : p a = true) (hu : ∀ x ∈ l, p x = true → x = a) :
    l.find? p = some a := by
  induction l with
  | nil => cases ha
  | cons b l ih =>
    cases hb : p b with
    | true =>
      have hba : b = a := hu b (List.mem_cons_self b l) hb
      rw [List.find?_cons_of_pos _ hb, hba]
    | false =>
      rw [List.find?_cons_of_neg _ (by simp [hb])]
      have ha' : a ∈ l := by
        rcases List.mem_cons.mp ha with h | h
        · exact absurd (h ▸ hpa) (by simp [hb])
        · exact h
      exact ih ha' fun x hx hpx => hu x (List.mem_cons_of_mem _ hx) hpx

theorem length_filter_mem {α : Type} [DecidableEq α] {l₁ l₂ : List α}
    (h₁ : l₁.Nodup) (h₂ : l₂.Nodup) (hsub : ∀ x ∈ l₂, x ∈ l₁) :
    (l₁.filter fun x => decide (x ∈ l₂)).length = l₂.length := by
  have hperm : (l₁.filter fun x => decide (x ∈ l₂)).Perm l₂ := by
    rw [List.perm_ext_iff_of_nodup (h₁.filter _) h₂]
    intro a
    simp only [List.mem_filter, decide_eq_true_eq]
    exact ⟨fun h => h.2, fun h => ⟨hsub a h, h⟩⟩
  exact hperm.length_eq

theorem length_filter_comp {α β : Type} (f : α → β) (q : β → Bool) (l : List α) :
    (l.filter fun s => q (f s)).length = ((l.map f).filter q).length := by
  induction l with
  | nil => rfl
  | cons a l ih =>
    by_cases h : q (f a) = true <;>
      simp [List.filter_cons, List.map_cons, h, ih]

theorem any_pid_eq_mem (rows : List SessionRow) (x : String) :
    (rows.any fun r => decide (r.player_id = x))
      = decide (x ∈ rows.map SessionRow.player_id) := by
  rw [Bool.eq_iff_iff]
  simp only [List.any_eq_true, decide_eq_true_eq, List.mem_map]

theorem countInUse_eq_length (st : DBState) (h : DBInv st) :
    (st.player_slot.filter fun s => s.in_use).length = st.user_session.length := by
  obtain ⟨hps, hrow, -, hsync, hsub⟩ := h
  have h1 : st.player_slot.filter (fun s => s.in_use)
      = st.player_slot.filter
          (fun s => st.user_session.any fun r => decide (r.player_id = s.player_id)) :=
    List.filter_congr fun s hs => by rw [hsync s hs]
  rw [h1]
  rw [length_filter_comp Slot.player_id
    (fun x => st.user_session.any fun r => decide (r.player_id = x)) st.player_slot]
  have h2 : (st.player_slot.map Slot.player_id).filter
        (fun x => st.user_session.any fun r => decide (r.player_id = x))
      = (st.player_slot.map Slot.player_id).filter
          (fun x => decide (x ∈ st.user_session.map SessionRow.player_id)) :=
    List.filter_congr fun x _ => any_pid_eq_mem st.user_session x
  rw [h2]
  have hsub' : ∀ x ∈ st.user_session.map SessionRow.player_id,
      x ∈ st.player_slot.map Slot.player_id := by
    intro x hx
    rcases List.mem_map.mp hx with ⟨r, hr, hrx⟩
    exact hrx ▸ hsub r hr
  rw [length_filter_mem hps hrow hsub', List.length_map]

theorem rows_deleteWhere (st : DBState) (p : SessionRow → Bool) :
    (deleteWhere st p).user_session = st.user_session.filter fun r => !(p r) := rfl

theorem slots_deleteWhere (st : DBState) (p : SessionRow → Bool) :
    (deleteWhere st p).player_slot
      = releaseSlots st.player_slot (st.user_session.filter p) := rfl

theorem DBInv_deleteWhere (st : DBState) (p : SessionRow → Bool) (h : DBInv st) :
    DBInv (deleteWhere st p) := by
  obtain ⟨hps, hrow, hsid, hsync, hsub⟩ := h
  have hkeep : ∀ r, r ∈ st.user_session.filter (fun r => !(p r)) → r ∈ st.user_session :=
    fun r hr => (List.mem_filter.mp hr).1
  refine ⟨?_, ?_, ?_, ?_, ?_⟩
  · rw [slots_deleteWhere, releaseSlots_map_player_id]; exact hps
  · rw [rows_deleteWhere]
    exact List.Nodup.sublist
      ((List.filter_sublist st.user_session).map SessionRow.player_id) hrow
  · rw [rows_deleteWhere]
    exact List.Nodup.sublist
      ((List.filter_sublist st.user_session).map SessionRow.session_id) hsid
  · intro s hs
    rw [slots_deleteWhere, releaseSlots_eq_map] at hs
    rcases List.mem_map.mp hs with ⟨s₀, hs₀, rfl⟩
    rw [rows_deleteWhere]
    by_cases hdel :
        ((st.user_session.filter p).any fun r => decide (r.player_id = s₀.player_id)) = true
    · rw [if_pos hdel]
      show false
        = (st.user_session.filter fun r => !(p r)).any
            fun r => decide (r.player_id = s₀.player_id)
      symm
      rw [List.any_eq_false]
      intro r hr
      simp only [decide_eq_true_eq]
      intro hpid
      rcases List.any_eq_true.mp hdel with ⟨d, hd, hdpid⟩
      rw [decide_eq_true_eq] at hdpid
      have hrd : r = d :=
        List.inj_on_of_nodup_map hrow (hkeep r hr) ((List.mem_filter.mp hd).1)
          (by rw [hpid, hdpid])
      have h1 : (!(p r)) = true := (List.mem_filter.mp hr).2
      have h2 : p d = true := (List.mem_filter.mp hd).2
      rw [hrd, h2] at h1
      cases h1
    · rw [if_neg hdel]
      rw [hsync s₀ hs₀, Bool.eq_iff_iff]
      simp only [List.any_eq_true, decide_eq_true_eq]
      constructor
      · rintro ⟨r, hr, hpid⟩
        refine ⟨r, List.mem_filter.mpr ⟨hr, ?_⟩, hpid⟩
        cases hpr : p r with
        | false => simp
        | true =>
          exfalso
          exact hdel (List.any_eq_true.mpr
            ⟨r, List.mem_filter.mpr ⟨hr, hpr⟩, by simp [hpid]⟩)
      · rintro ⟨r, hr, hpid⟩
        exact ⟨r, (List.mem_filter.mp hr).1, hpid⟩
  · intro r hr
    rw [rows_deleteWhere] at hr
    rw [slots_deleteWhere, releaseSlots_map_player_id]
    exact hsub r (hkeep r hr)

theorem get_available_ok (st : DBState) (p : String)
    (h : get_available_player_id st = .ok p) :
    ∃ sl ∈ st.player_slot, sl.in_use = false ∧ sl.player_id = p := by
  simp only [get_available_player_id] at h
  cases hf : st.player_slot.find? fun s => !s.in_use with
  | none => rw [hf] at h; cases h
  | some sl =>
    rw [hf] at h
    cases h
    have hmem := List.mem_of_find?_eq_some hf
    have hp := List.find?_some hf
    exact ⟨sl, hmem, by simpa using hp, rfl⟩

theorem DBInv_insertSession (st : DBState) (row : SessionRow)
    (h : DBInv st)
    (hfree : ∃ sl ∈ st.player_slot, sl.in_use = false ∧ sl.player_id = row.player_id)
    (hfresh : ∀ r ∈ st.user_session, r.session_id ≠ row.session_id) :
    DBInv (insertSession st row) := by
  obtain ⟨hps, hrow, hsid, hsync, hsub⟩ := h
  obtain ⟨sl, hsl, hslfree, hslpid⟩ := hfree
  have hnotin : row.player_id ∉ st.user_session.map SessionRow.player_id := by
    intro hmem
    rcases List.mem_map.mp hmem with ⟨r, hr, hrpid⟩
    have hfalse := hsync sl hsl
    rw [hslfree] at hfalse
    have hany : (st.user_session.any fun q => decide (q.player_id = sl.player_id)) = true :=
      List.any_eq_true.mpr ⟨r, hr, by rw [decide_eq_true_eq, hrpid, hslpid]⟩
    rw [← hfalse] at hany
    cases hany
  have hsidnotin : row.session_id ∉ st.user_session.map SessionRow.session_id := by
    intro hmem
    rcases List.mem_map.mp hmem with ⟨r, hr, hrsid⟩
    exact hfresh r hr hrsid
  refine ⟨?_, ?_, ?_, ?_, ?_⟩
  · show ((markSlot st.player_slot row.player_id true).map Slot.player_id).Nodup
    rw [markSlot_map_player_id]; exact hps
  · show (((st.user_session ++ [row]).map SessionRow.player_id)).Nodup
    rw [List.map_append]
    simp only [List.nodup_append, List.map_cons, List.map_nil]
    exact ⟨hrow, List.nodup_singleton _, by simpa using hnotin⟩
  · show (((st.user_session ++ [row]).map SessionRow.session_id)).Nodup
    rw [List.map_append]
    simp only [List.nodup_append, List.map_cons, List.map_nil]
    exact ⟨hsid, List.nodup_singleton _, by simpa using hsidnotin⟩
  · intro s hs
    show s.in_use
      = (st.user_session ++ [row]).any fun r => decide (r.player_id = s.player_id)
    rcases List.mem_map.mp hs with ⟨s₀, hs₀, rfl⟩
    by_cases hpid : s₀.player_id = row.player_id
    · rw [if_pos hpid]
      show true
        = (st.user_session ++ [row]).any
            fun r => decide (r.player_id = s₀.player_id)
      symm
      rw [List.any_append]
      apply Bool.or_eq_true_iff.mpr
      right
      simp [hpid]
    · rw [if_neg hpid]
      rw [hsync s₀ hs₀, List.any_append]
      have hne : ¬row.player_id = s₀.player_id := fun hh => hpid hh.symm
      simp [hne]
  · intro r hr
    show r.player_id ∈ (markSlot st.player_slot row.player_id true).map Slot.player_id
    rw [markSlot_map_player_id]
    rcases List.mem_append.mp hr with hr' | hr'
    · exact hsub r hr'
    · rw [List.mem_singleton.mp hr', ← hslpid]
      exact List.mem_map_of_mem Slot.player_id hsl

/-! ## Claims about `retrieve_session` -/

/-- C2: `retrieve_session` returns a session exactly when a row with the
given `session_id` exists whose `session_used` lies within the last ten
minutes; on success the returned row is that row and, as a side effect, its
`session_used` is set to the current time in the store; in every other
case — row absent, or present but outside the window — the result is the
same not-found pair with the store untouched, so a caller cannot tell an
expired session from one that never existed. -/
theorem c2_retrieve_session_iff (now : Int) (sid : Nat) (st : DBState) :
    ((retrieve_session now sid st).fst.isSome
        ↔ ∃ r ∈ st.user_session, r.session_id = sid ∧ liveAt now r.session_used = true)
    ∧ (∀ r, (retrieve_session now sid st).fst = some r →
        r ∈ st.user_session ∧ r.session_id = sid ∧ liveAt now r.session_used = true
          ∧ { r with session_used := now } ∈ (retrieve_session now sid st).snd.user_session)
    ∧ ((retrieve_session now sid st).fst = none →
        retrieve_session now sid st = (none, st)) := by
  unfold retrieve_session
  cases hf : st.user_session.find?
      (fun r => decide (r.session_id = sid) && liveAt now r.session_used) with
  | none =>
    simp only [hf]
    refine ⟨?_, ?_, ?_⟩
    · simp only [Option.isSome_none, Bool.false_eq_true, false_iff]
      rintro ⟨r, hr, hsid, hlive⟩
      rw [List.find?_eq_none] at hf
      exact hf r hr (by simp [hsid, hlive])
    · intro r h; cases h
    · intro _; trivial
  | some r₀ =>
    simp only [hf]
    have hp := List.find?_some hf
    have hmem := List.mem_of_find?_eq_some hf
    rw [Bool.and_eq_true, decide_eq_true_eq] at hp
    refine ⟨?_, ?_, ?_⟩
    · simp only [Option.isSome_some, true_iff]
      exact ⟨r₀, hmem, hp.1, hp.2⟩
    · intro r hr
      have hr' : r₀ = r := by simpa using hr
      subst hr'
      refine ⟨hmem, hp.1, hp.2, ?_⟩
      show { r₀ with session_used := now } ∈ touchRows st.user_session sid now
      unfold touchRows
      exact List.mem_map.mpr ⟨r₀, hmem, by rw [if_pos hp.1]⟩
    · intro h; cases h

/-- C3: a session whose `session_used` was last set at time T and is not
touched again resolves at any later time t with t - T ≤ WINDOW, resolves
to not-found at any t with t - T > WINDOW, and a successful resolution at
time t restarts the window by setting `session_used` to t, so the session
then resolves at any u with t ≤ u and u - t ≤ WINDOW. -/
theorem c3_liveness_window (T t : Int) (sid : Nat) (st : DBState) (r : SessionRow)
    (hmem : r ∈ st.user_session) (hsid : r.session_id = sid)
    (hT : r.session_used = T)
    (huniq : ∀ q ∈ st.user_session, q.session_id = sid → q = r)
    (hTt : T ≤ t) :
    (t - T ≤ WINDOW → (retrieve_session t sid st).fst = some r)
    ∧ (WINDOW < t - T → retrieve_session t sid st = (none, st))
    ∧ (t - T ≤ WINDOW → ∀ u, t ≤ u → u - t ≤ WINDOW →
        (retrieve_session u sid (retrieve_session t sid st).snd).fst
          = some { r with session_used := t }) := by
  have hW : WINDOW = (600 : Int) := rfl
  have hfind : t - T ≤ WINDOW →
      st.user_session.find?
        (fun q => decide (q.session_id = sid) && liveAt t q.session_used) = some r := by
    intro hwin
    rw [hW] at hwin
    apply find?_eq_some_unique hmem
    · have h1 : t - WINDOW ≤ r.session_used := by rw [hT, hW]; omega
      have h2 : r.session_used ≤ t := by rw [hT]; omega
      simp [liveAt, hsid, h1, h2]
    · intro q hq hpq
      rw [Bool.and_eq_true, decide_eq_true_eq] at hpq
      exact huniq q hq hpq.1
  refine ⟨?_, ?_, ?_⟩
  · intro hwin
    unfold retrieve_session
    rw [hfind hwin]
  · intro hwin
    rw [hW] at hwin
    unfold retrieve_session
    have hnone : st.user_session.find?
        (fun q => decide (q.session_id = sid) && liveAt t q.session_used) = none := by
      rw [List.find?_eq_none]
      intro q hq hpq
      rw [Bool.and_eq_true, decide_eq_true_eq] at hpq
      have hqr : q = r := huniq q hq hpq.1
      have hlive := hpq.2
      rw [hqr, hT, liveAt, hW, Bool.and_eq_true, decide_eq_true_eq,
        decide_eq_true_eq] at hlive
      omega
    rw [hnone]
  · intro hwin u htu huw
    rw [hW] at huw
    have hsnd : (retrieve_session t sid st).snd
        = { st with user_session := touchRows st.user_session sid t } := by
      unfold retrieve_session
      rw [hfind hwin]
    rw [hsnd]
    unfold retrieve_session
    have hfind2 : (touchRows st.user_session sid t).find?
        (fun q => decide (q.session_id = sid) && liveAt u q.session_used)
          = some { r with session_used := t } := by
      apply find?_eq_some_unique
      · exact List.mem_map.mpr ⟨r, hmem, by rw [if_pos hsid]⟩
      · have h1 : u - WINDOW ≤ t := by rw [hW]; omega
        simp [liveAt, hsid, h1, htu]
      · intro q hq hpq
        rw [Bool.and_eq_true, decide_eq_true_eq] at hpq
        rcases List.mem_map.mp hq with ⟨q₀, hq₀, hqeq⟩
        have hq₀sid : q₀.session_id = sid := by
          by_cases hc : q₀.session_id = sid
          · exact hc
          · rw [if_neg hc] at hqeq
            rw [← hqeq] at hpq
            exact absurd hpq.1 hc
        rw [if_pos hq₀sid] at hqeq
        have hq₀r : q₀ = r := huniq q₀ hq₀ hq₀sid
        rw [← hqeq, hq₀r]
    rw [hfind2]

/-! ## Claims about the reap and the player count -/

/-- C4: `get_online_player_count` first reaps every session row outside the
ten-minute window, and the integer it returns equals the number of session
rows whose `session_used` lies within the window after the reap (after the
reap all remaining rows are within the window). -/
theorem c4_online_count (now : Int) (st : DBState) (h : DBInv st) :
    (∀ r ∈ (get_online_player_count now st).snd.user_session,
        liveAt now r.session_used = true)
    ∧ (get_online_player_count now st).fst
        = ((get_online_player_count now st).snd.user_session.filter
            fun r => liveAt now r.session_used).length := by
  have hsnd : (get_online_player_count now st).snd
      = deleteWhere st (fun r => !(liveAt now r.session_used)) := rfl
  have hall : ∀ r ∈ (deleteWhere st
        (fun r => !(liveAt now r.session_used))).user_session,
      liveAt now r.session_used = true := by
    intro r hr
    rw [rows_deleteWhere] at hr
    have h2 := (List.mem_filter.mp hr).2
    simpa using h2
  constructor
  · rw [hsnd]; exact hall
  · have hinv' := DBInv_deleteWhere st (fun r => !(liveAt now r.session_used)) h
    have hcount := countInUse_eq_length _ hinv'
    have hfst : (get_online_player_count now st).fst
        = ((deleteWhere st (fun r => !(liveAt now r.session_used))).player_slot.filter
            fun s => s.in_use).length := rfl
    rw [hfst, hcount, hsnd, List.filter_eq_self.mpr fun r hr => hall r hr]

theorem start_session_some_ok (insertFails : Bool) (sid : Nat) (now : Int)
    (rq : LoginRequest) (st st' : DBState) (pr : Nat × String)
    (h : start_session insertFails sid now rq st = (some pr, st')) :
    insertFails = false ∧ pr.1 = sid ∧ get_available_player_id st = .ok pr.2 ∧
      st' = insertSession st
        { session_id := sid, player_id := pr.2, player_name := rq.player_name,
          num_ships := rq.num_ships, session_started := now,
          session_used := now } := by
  unfold start_session start_session_run at h
  cases hg : get_available_player_id st with
  | error e => rw [hg] at h; simp at h
  | ok p =>
    rw [hg] at h
    cases insertFails with
    | true => simp at h
    | false =>
      simp only [Bool.false_eq_true, if_false, Prod.mk.injEq,
        Option.some.injEq] at h
      obtain ⟨h1, h2⟩ := h
      refine ⟨rfl, ?_, ?_, ?_⟩
      · rw [← h1]
      · rw [← h1]
      · rw [← h1, ← h2]

/-- C5: the reap performed inside `get_online_player_count` deletes every
session row whose `session_used` is outside the window and releases its
identifier slot, and when a subsequent `start_session` against the reaped
store succeeds, the identifier it hands out collides with no session that
survived the reap — so a reaped identifier is again assignable without a
collision. -/
theorem c5_reap_release (now now2 : Int) (st : DBState) (h : DBInv st)
    (sid2 : Nat) (rq : LoginRequest) (p2 : String) (st2 : DBState)
    (hrun : start_session false sid2 now2 rq (get_online_player_count now st).snd
        = (some (sid2, p2), st2)) :
    (∀ r ∈ st.user_session, liveAt now r.session_used = false →
        r ∉ (get_online_player_count now st).snd.user_session
        ∧ ∀ s ∈ (get_online_player_count now st).snd.player_slot,
            s.player_id = r.player_id → s.in_use = false)
    ∧ ∀ r ∈ (get_online_player_count now st).snd.user_session,
        r.player_id ≠ p2 := by
  have hsnd : (get_online_player_count now st).snd
      = deleteWhere st (fun r => !(liveAt now r.session_used)) := rfl
  constructor
  · intro r hr hlive
    have hds : r ∈ st.user_session.filter (fun q => !(liveAt now q.session_used)) :=
      List.mem_filter.mpr ⟨hr, by simp [hlive]⟩
    constructor
    · intro hmem
      rw [hsnd, rows_deleteWhere] at hmem
      have hkept := (List.mem_filter.mp hmem).2
      rw [hlive] at hkept
      cases hkept
    · intro s hs hpid
      rw [hsnd, slots_deleteWhere, releaseSlots_eq_map] at hs
      rcases List.mem_map.mp hs with ⟨s₀, hs₀, rfl⟩
      have hpid₀ : s₀.player_id = r.player_id := by
        by_cases hc : ((st.user_session.filter fun q => !(liveAt now q.session_used)).any
            fun d => decide (d.player_id = s₀.player_id)) = true <;>
          simpa [hc] using hpid
      have hc : ((st.user_session.filter fun q => !(liveAt now q.session_used)).any
          fun d => decide (d.player_id = s₀.player_id)) = true :=
        List.any_eq_true.mpr ⟨r, hds, by simp [hpid₀]⟩
      rw [if_pos hc]
  · obtain ⟨-, -, hok, -⟩ :=
      start_session_some_ok false sid2 now2 rq _ st2 (sid2, p2) hrun
    obtain ⟨sl, hsl, hslfree, hslpid⟩ := get_available_ok _ _ hok
    have hinv' : DBInv (get_online_player_count now st).snd := by
      rw [hsnd]; exact DBInv_deleteWhere st _ h
    obtain ⟨-, -, -, hsync, -⟩ := hinv'
    intro r hr hpid
    have hfalse := hsync sl hsl
    rw [hslfree] at hfalse
    have hany : ((get_online_player_count now st).snd.user_session.any
        fun q => decide (q.player_id = sl.player_id)) = true :=
      List.any_eq_true.mpr ⟨r, hr, by simp [hpid, hslpid]⟩
    rw [← hfalse] at hany
    cases hany

/-! ## Claim about identifier uniqueness -/

/-- C1: two back-to-back allocations with no release in between hand out
distinct identifiers, and the store after both creates still has pairwise
distinct `player_id` values among its (simultaneously live) session rows:
the spec-modelled select-and-mark step of `get_available_player_id` plus
the session insert never gives the same identifier to two active
sessions. -/
theorem c1_player_id_unique (now1 now2 : Int) (sid1 sid2 : Nat)
    (rq1 rq2 : LoginRequest) (st st1 st2 : DBState) (p1 p2 : String)
    (hinv : DBInv st)
    (hf1 : ∀ r ∈ st.user_session, r.session_id ≠ sid1)
    (h1 : start_session false sid1 now1 rq1 st = (some (sid1, p1), st1))
    (hf2 : ∀ r ∈ st1.user_session, r.session_id ≠ sid2)
    (h2 : start_session false sid2 now2 rq2 st1 = (some (sid2, p2), st2)) :
    p1 ≠ p2 ∧ (st2.user_session.map SessionRow.player_id).Nodup := by
  obtain ⟨-, -, hok1, hst1⟩ :=
    start_session_some_ok false sid1 now1 rq1 st st1 (sid1, p1) h1
  obtain ⟨-, -, hok2, hst2⟩ :=
    start_session_some_ok false sid2 now2 rq2 st1 st2 (sid2, p2) h2
  have hinv1 : DBInv st1 := by
    rw [hst1]
    exact DBInv_insertSession st _ hinv (get_available_ok st p1 hok1)
      (fun r hr => hf1 r hr)
  have hinv2 : DBInv st2 := by
    rw [hst2]
    exact DBInv_insertSession st1 _ hinv1 (get_available_ok st1 p2 hok2)
      (fun r hr => hf2 r hr)
  refine ⟨?_, hinv2.2.1⟩
  intro hpp
  obtain ⟨sl2, hsl2, hsl2free, hsl2pid⟩ := get_available_ok st1 p2 hok2
  rw [hst1] at hsl2
  have hsl2' : sl2 ∈ markSlot st.player_slot p1 true := hsl2
  rcases List.mem_map.mp hsl2' with ⟨s₀, hs₀, heq⟩
  by_cases hc : s₀.player_id = p1
  · rw [if_pos hc] at heq
    rw [← heq] at hsl2free
    cases hsl2free
  · rw [if_neg hc] at heq
    rw [← heq] at hsl2pid
    exact hc (by rw [hsl2pid, ← hpp])

/-! ## Claim about `end_session` -/

/-- C6: `end_session` deletes the session row when present, and the
spec-modelled schema sync releases the deleted row's identifier; deleting
an id with no row leaves the store unchanged, so a second call on the same
id is a no-op and cannot release an identifier already reused by another
session; and whether or not the underlying delete raises, the caller
observes a resulting store and never an error. -/
theorem c6_end_session_idempotent (sid : Nat) (st : DBState) :
    (∀ r ∈ (end_session false sid st).user_session, r.session_id ≠ sid)
    ∧ (∀ r ∈ st.user_session, r.session_id = sid →
        ∀ s ∈ (end_session false sid st).player_slot,
          s.player_id = r.player_id → s.in_use = false)
    ∧ ((∀ r ∈ st.user_session, r.session_id ≠ sid) → end_session false sid st = st)
    ∧ end_session false sid (end_session false sid st) = end_session false sid st
    ∧ (∀ b : Bool, end_session b sid st = st
        ∨ end_session b sid st = end_session false sid st) := by
  have hdef : end_session false sid st
      = deleteWhere st (fun r => decide (r.session_id = sid)) := rfl
  have hgone : ∀ r ∈ (end_session false sid st).user_session, r.session_id ≠ sid := by
    intro r hr
    rw [hdef, rows_deleteWhere] at hr
    have h2 := (List.mem_filter.mp hr).2
    simpa using h2
  have hnoop : ∀ u : DBState, (∀ r ∈ u.user_session, r.session_id ≠ sid) →
      end_session false sid u = u := by
    intro u hu
    show deleteWhere u (fun r => decide (r.session_id = sid)) = u
    have hempty : u.user_session.filter (fun r => decide (r.session_id = sid)) = [] := by
      rw [List.filter_eq_nil_iff]
      intro r hr
      simp only [decide_eq_true_eq]
      exact hu r hr
    cases u with
    | mk rows ps =>
      unfold deleteWhere
      simp only
      rw [hempty]
      have hrows : rows.filter (fun r => !decide (r.session_id = sid)) = rows := by
        rw [List.filter_eq_self]
        intro r hr
        simp [hu r hr]
      rw [hrows]
      rfl
  refine ⟨hgone, ?_, hnoop st, hnoop _ hgone, ?_⟩
  · intro r hr hrsid s hs hpid
    have hds : r ∈ st.user_session.filter (fun q => decide (q.session_id = sid)) :=
      List.mem_filter.mpr ⟨hr, by simp [hrsid]⟩
    rw [hdef, slots_deleteWhere, releaseSlots_eq_map] at hs
    rcases List.mem_map.mp hs with ⟨s₀, hs₀, rfl⟩
    have hpid₀ : s₀.player_id = r.player_id := by
      by_cases hc : ((st.user_session.filter fun q => decide (q.session_id = sid)).any
          fun d => decide (d.player_id = s₀.player_id)) = true <;>
        simpa [hc] using hpid
    have hc : ((st.user_session.filter fun q => decide (q.session_id = sid)).any
        fun d => decide (d.player_id = s₀.player_id)) = true :=
      List.any_eq_true.mpr ⟨r, hds, by simp [hpid₀]⟩
    rw [if_pos hc]
  · intro b
    cases b with
    | true => exact Or.inl rfl
    | false => exact Or.inr rfl

/-! ## Validation lemmas and claim C7 -/

theorem ws_not_nameCharOk (c : Char) (h : c.isWhitespace = true) :
    nameCharOk c = false := by
  simp only [Char.isWhitespace, Bool.or_eq_true, decide_eq_true_eq, or_assoc] at h
  rcases h with rfl | rfl | rfl | rfl <;> decide

theorem isBlank_badName (nm : String) (h : isBlank nm = true) :
    (decide (nm.length < 4) || decide (32 < nm.length) || !(nameOk nm)) = true := by
  cases hd : nm.data with
  | nil =>
    have hlen : nm.length = 0 := by
      show nm.data.length = 0
      rw [hd]
      rfl
    simp [hlen]
  | cons c cs =>
    have hall : (c :: cs).all Char.isWhitespace = true := by
      rw [isBlank, hd] at h
      exact h
    have hc : c.isWhitespace = true :=
      List.all_eq_true.mp hall c (List.mem_cons_self c cs)
    have hnotok : nameOk nm = false := by
      rw [nameOk, hd]
      cases hok : (c :: cs).all nameCharOk with
      | false => rfl
      | true =>
        have hco := List.all_eq_true.mp hok c (List.mem_cons_self c cs)
        rw [ws_not_nameCharOk c hc] at hco
        cases hco
    simp [hnotok]

theorem isBlank_badShips (ns : String) (h : isBlank ns = true) :
    USER_SESSION_NUM_SHIPS_OPTIONS.contains ns = false := by
  cases hc : USER_SESSION_NUM_SHIPS_OPTIONS.contains ns with
  | false => rfl
  | true =>
    exfalso
    have hmem : ns ∈ USER_SESSION_NUM_SHIPS_OPTIONS := by simpa using hc
    simp only [USER_SESSION_NUM_SHIPS_OPTIONS, List.mem_cons,
      List.mem_singleton, List.not_mem_nil, or_false] at hmem
    rcases hmem with h1 | h1 | h1 | h1 | h1 <;> subst h1 <;>
      exact absurd h (by decide)

theorem init_invalid (d : SessionData) (h : (badName d || badShips d) = true) :
    ∃ f msg, UserSession.init d = .error (.validationError f msg)
      ∧ ((f = "player_name" ∧ badName d = true)
        ∨ (f = "num_ships" ∧ badShips d = true)) := by
  obtain ⟨dsid, dpid, dpn, dns, dss, dsu⟩ := d
  cases dpn with
  | none =>
    exact ⟨"player_name", "required", rfl, Or.inl ⟨rfl, rfl⟩⟩
  | some nm =>
    simp only [UserSession.init, badName, badShips] at h ⊢
    by_cases hbnm : isBlank nm = true
    · rw [if_pos hbnm]
      exact ⟨"player_name", "required", rfl,
        Or.inl ⟨rfl, isBlank_badName nm hbnm⟩⟩
    · rw [if_neg hbnm]
      cases dns with
      | none =>
        exact ⟨"num_ships", "required", rfl, Or.inr ⟨rfl, rfl⟩⟩
      | some ns =>
        simp only [] at h ⊢
        by_cases hbns : isBlank ns = true
        · rw [if_pos hbns]
          exact ⟨"num_ships", "required", rfl,
            Or.inr ⟨rfl, by rw [isBlank_badShips ns hbns]; rfl⟩⟩
        · rw [if_neg hbns]
          simp only [UserSession.validate]
          by_cases h4 : nm.length < USER_SESSION_PLAYER_NAME_MIN_LEN
          · rw [if_pos h4]
            exact ⟨"player_name", "min len 4", rfl,
              Or.inl ⟨rfl, by simp [show nm.length < 4 from h4]⟩⟩
          · rw [if_neg h4]
            by_cases h5 : USER_SESSION_PLAYER_NAME_MAX_LEN < nm.length
            · rw [if_pos h5]
              exact ⟨"player_name", "max len 32", rfl,
                Or.inl ⟨rfl, by simp [show 32 < nm.length from h5]⟩⟩
            · rw [if_neg h5]
              by_cases h6 : (!(nameOk nm)) = true
              · rw [if_pos h6]
                exact ⟨"player_name", "A-Z a-z 0-9 - _ . only", rfl,
                  Or.inl ⟨rfl, by simp [h6]⟩⟩
              · rw [if_neg h6]
                by_cases h7 : (!(USER_SESSION_NUM_SHIPS_OPTIONS.contains ns)) = true
                · rw [if_pos h7]
                  exact ⟨"num_ships", "options: [1, 2, 3, 4, 5]", rfl,
                    Or.inr ⟨rfl, by simpa using h7⟩⟩
                · rw [if_neg h7]
                  exfalso
                  have h4p : decide (nm.length < 4) = false := by
                    simp only [decide_eq_false_iff_not]
                    exact h4
                  have h5p : decide (32 < nm.length) = false := by
                    simp only [decide_eq_false_iff_not]
                    exact h5
                  have h6p : (!(nameOk nm)) = false := Bool.eq_false_iff.mpr h6
                  have h7p : (!(USER_SESSION_NUM_SHIPS_OPTIONS.contains ns)) = false :=
                    Bool.eq_false_iff.mpr h7
                  rw [h4p, h5p, h6p, h7p] at h
                  simp at h

/-- C7: a `create_session` request whose `player_name` is absent, shorter
than 4 characters, longer than 32, or containing a character outside
letters, digits, hyphen, underscore, dot — or whose `num_ships` is absent
or not one of the strings 1..5 — fails during model construction with a
`ValidationException` naming the offending field, and the store is
returned untouched: no identifier is consumed and no session row is
created before validation. -/
theorem c7_validation_before_allocation (insertFails : Bool) (gsid : Nat)
    (now : Int) (d : SessionData) (st : DBState)
    (h : (badName d || badShips d) = true) :
    ∃ f msg, create_session insertFails gsid now d st
        = (.error (.validationError f msg), st)
      ∧ ((f = "player_name" ∧ badName d = true)
        ∨ (f = "num_ships" ∧ badShips d = true)) := by
  obtain ⟨f, msg, hinit, hfield⟩ := init_invalid d h
  refine ⟨f, msg, ?_, hfield⟩
  unfold create_session
  rw [hinit]

/-! ## Claims about the failure paths of allocation and creation -/

/-- C8: when every slot in the pool is in use, the availability query
fetches no row and the Python dereferences None before its guard:
`get_available_player_id` raises AttributeError, not the intended
server-full APIException — the code path the claim describes is
unreachable. -/
theorem c8_pool_exhausted_attribute_error (st : DBState)
    (h : ∀ s ∈ st.player_slot, s.in_use = true) :
    get_available_player_id st = .error PyError.attributeError := by
  have hnone : (st.player_slot.find? fun s => !s.in_use) = none := by
    rw [List.find?_eq_none]
    intro s hs
    simp [h s hs]
  unfold get_available_player_id
  rw [hnone]

/-- C9: when the insert raises after the identifier was already allocated,
`start_session` catches the exception, logs it and returns None with the
store unchanged — no release is performed by this code and no explicit
error result is surfaced to the caller, contradicting the claim's
release-then-surface requirement. -/
theorem c9_insert_failure_swallowed (sid : Nat) (now : Int) (rq : LoginRequest)
    (st : DBState) (p : String)
    (halloc : get_available_player_id st = .ok p) :
    start_session true sid now rq st = (none, st) := by
  unfold start_session start_session_run
  rw [halloc]
  rfl

/-- C10: whatever raises inside the try block of `start_session` —
identifier allocation, the insert, or any other step — the blanket except
catches it, logs, and the function returns None: the caller observes None
with the store unchanged, never an error. -/
theorem c10_start_session_never_raises (insertFails : Bool) (sid : Nat)
    (now : Int) (rq : LoginRequest) (st : DBState) (e : PyError)
    (h : start_session_run insertFails sid now rq st = .error e) :
    start_session insertFails sid now rq st = (none, st) := by
  unfold start_session
  rw [h]

/-! ## Concrete witnesses -/

/-- Witness for C1: against a fresh two-slot pool, two back-to-back creates
hand out identifiers 0001 then 0002, and the final store's rows bind
pairwise distinct identifiers. -/
theorem c1_player_id_unique_witness :
    "0001" ≠ "0002"
    ∧ (((⟨[⟨1, "0001", "Alice", "3", 0, 0⟩, ⟨2, "0002", "Bob", "3", 0, 0⟩],
          [⟨"0001", true⟩, ⟨"0002", true⟩]⟩ : DBState)).user_session.map
            SessionRow.player_id).Nodup :=
  c1_player_id_unique 0 0 1 2 ⟨"Alice", "3"⟩ ⟨"Bob", "3"⟩
    ⟨[], [⟨"0001", false⟩, ⟨"0002", false⟩]⟩
    ⟨[⟨1, "0001", "Alice", "3", 0, 0⟩], [⟨"0001", true⟩, ⟨"0002", false⟩]⟩
    ⟨[⟨1, "0001", "Alice", "3", 0, 0⟩, ⟨2, "0002", "Bob", "3", 0, 0⟩],
      [⟨"0001", true⟩, ⟨"0002", true⟩]⟩
    "0001" "0002" (by decide) (by decide) rfl (by decide) rfl

/-- Witness for C3: a session touched at time 0 still resolves at time 600,
the right edge of the ten-minute window. -/
theorem c3_liveness_window_witness :
    (retrieve_session 600 1
        ⟨[⟨1, "0001", "Alice", "3", 0, 0⟩], [⟨"0001", true⟩]⟩).fst
      = some ⟨1, "0001", "Alice", "3", 0, 0⟩ := by
  have h := c3_liveness_window 0 600 1
      ⟨[⟨1, "0001", "Alice", "3", 0, 0⟩], [⟨"0001", true⟩]⟩
      ⟨1, "0001", "Alice", "3", 0, 0⟩ (by decide) rfl rfl (by decide) (by decide)
  exact h.1 (by decide)

/-- Witness for C4 on a store holding one expired and one live session. -/
theorem c4_online_count_witness :
    (∀ r ∈ (get_online_player_count 1000
        ⟨[⟨1, "0001", "Alice", "3", 0, 0⟩, ⟨2, "0002", "Bob", "3", 900, 900⟩],
          [⟨"0001", true⟩, ⟨"0002", true⟩]⟩).snd.user_session,
        liveAt 1000 r.session_used = true)
    ∧ (get_online_player_count 1000
        ⟨[⟨1, "0001", "Alice", "3", 0, 0⟩, ⟨2, "0002", "Bob", "3", 900, 900⟩],
          [⟨"0001", true⟩, ⟨"0002", true⟩]⟩).fst
        = ((get_online_player_count 1000
            ⟨[⟨1, "0001", "Alice", "3", 0, 0⟩, ⟨2, "0002", "Bob", "3", 900, 900⟩],
              [⟨"0001", true⟩, ⟨"0002", true⟩]⟩).snd.user_session.filter
            fun r => liveAt 1000 r.session_used).length :=
  c4_online_count 1000
    ⟨[⟨1, "0001", "Alice", "3", 0, 0⟩, ⟨2, "0002", "Bob", "3", 900, 900⟩],
      [⟨"0001", true⟩, ⟨"0002", true⟩]⟩ (by decide)

/-- Witness for C5: the reap frees identifier 0001 of an expired session
and the next create reuses it without colliding with a live session. -/
theorem c5_reap_release_witness :
    (∀ r ∈ (⟨[⟨1, "0001", "Alice", "3", 0, 0⟩],
          [⟨"0001", true⟩, ⟨"0002", false⟩]⟩ : DBState).user_session,
        liveAt 1000 r.session_used = false →
        r ∉ (get_online_player_count 1000
            ⟨[⟨1, "0001", "Alice", "3", 0, 0⟩],
              [⟨"0001", true⟩, ⟨"0002", false⟩]⟩).snd.user_session
        ∧ ∀ s ∈ (get_online_player_count 1000
            ⟨[⟨1, "0001", "Alice", "3", 0, 0⟩],
              [⟨"0001", true⟩, ⟨"0002", false⟩]⟩).snd.player_slot,
            s.player_id = r.player_id → s.in_use = false)
    ∧ ∀ r ∈ (get_online_player_count 1000
        ⟨[⟨1, "0001", "Alice", "3", 0, 0⟩],
          [⟨"0001", true⟩, ⟨"0002", false⟩]⟩).snd.user_session,
        r.player_id ≠ "0001" :=
  c5_reap_release 1000 1000
    ⟨[⟨1, "0001", "Alice", "3", 0, 0⟩], [⟨"0001", true⟩, ⟨"0002", false⟩]⟩
    (by decide) 3 ⟨"Carl", "3"⟩ "0001"
    ⟨[⟨3, "0001", "Carl", "3", 1000, 1000⟩], [⟨"0001", true⟩, ⟨"0002", false⟩]⟩
    rfl

/-- Witness for C7: a two-character player name is rejected with a
`ValidationException` on `player_name` and the store is untouched. -/
theorem c7_validation_before_allocation_witness :
    (badName ⟨none, none, some "ab", some "3", none, none⟩
        || badShips ⟨none, none, some "ab", some "3", none, none⟩) = true
    ∧ ∃ f msg, create_session false 7 0
          ⟨none, none, some "ab", some "3", none, none⟩
          ⟨[], [⟨"0001", false⟩]⟩
        = (.error (.validationError f msg), ⟨[], [⟨"0001", false⟩]⟩)
      ∧ ((f = "player_name"
            ∧ badName ⟨none, none, some "ab", some "3", none, none⟩ = true)
        ∨ (f = "num_ships"
            ∧ badShips ⟨none, none, some "ab", some "3", none, none⟩ = true)) :=
  ⟨by decide, c7_validation_before_allocation false 7 0
    ⟨none, none, some "ab", some "3", none, none⟩
    ⟨[], [⟨"0001", false⟩]⟩ (by decide)⟩

/-- Witness for C8: on a pool whose only slot is in use, allocation ends in
the AttributeError of the None dereference. -/
theorem c8_pool_exhausted_attribute_error_witness :
    get_available_player_id ⟨[], [⟨"0001", true⟩]⟩
      = .error PyError.attributeError :=
  c8_pool_exhausted_attribute_error ⟨[], [⟨"0001", true⟩]⟩ (by decide)

/-- Witness for C9: with identifier 0001 allocated and the insert raising,
`start_session` returns None and the store is unchanged. -/
theorem c9_insert_failure_swallowed_witness :
    start_session true 5 0 ⟨"Alice", "3"⟩ ⟨[], [⟨"0001", false⟩]⟩
      = (none, ⟨[], [⟨"0001", false⟩]⟩) :=
  c9_insert_failure_swallowed 5 0 ⟨"Alice", "3"⟩ ⟨[], [⟨"0001", false⟩]⟩
    "0001" rfl

/-- Witness for C10: the allocation failure on an exhausted pool is caught
and `start_session` returns None with the store unchanged. -/
theorem c10_start_session_never_raises_witness :
    start_session false 5 0 ⟨"Alice", "3"⟩ ⟨[], [⟨"0001", true⟩]⟩
      = (none, ⟨[], [⟨"0001", true⟩]⟩) :=
  c10_start_session_never_raises false 5 0 ⟨"Alice", "3"⟩
    ⟨[], [⟨"0001", true⟩]⟩ PyError.attributeError rfl
